import Mathlib

/-!
Shallow embedding of the spaceship-game sources (TypeScript, three.js / cannon-es)
over the real numbers. JavaScript numbers are modelled as elements of the reals;
three.js vector and quaternion operations are translated formula-by-formula from
the three.js sources the repository uses.

Embedded files:
  src/src/Spaceship.ts          (kinematic motion model, class Spaceship)
  src/src/main.ts               (rigid-body motion model, second class Spaceship)
  src/src/CameraController.ts   (camera follow / zoom state machine)
  src/unnamed/part_001          (CollisionSystem)
-/

noncomputable section

/-- Three-component vector, mirroring THREE.Vector3 / CANNON.Vec3. -/
structure Vec3 where
  x : ℝ
  y : ℝ
  z : ℝ

/-- THREE.Vector3.add: componentwise sum. -/
def Vec3.add (a b : Vec3) : Vec3 := ⟨a.x + b.x, a.y + b.y, a.z + b.z⟩

/-- THREE.Vector3.sub: componentwise difference. -/
def Vec3.sub (a b : Vec3) : Vec3 := ⟨a.x - b.x, a.y - b.y, a.z - b.z⟩

/-- THREE.Vector3.multiplyScalar k: scale every component by k. -/
def Vec3.smul (k : ℝ) (v : Vec3) : Vec3 := ⟨k * v.x, k * v.y, k * v.z⟩

/-- THREE.Vector3.length: Euclidean norm. -/
def Vec3.length (v : Vec3) : ℝ := Real.sqrt (v.x ^ 2 + v.y ^ 2 + v.z ^ 2)

/-- THREE.Vector3.normalize: divideScalar (length or 1) - the or-1 guard is the
JavaScript falsy-zero fallback in the three.js source. -/
def Vec3.normalize (v : Vec3) : Vec3 :=
  Vec3.smul (1 / (if v.length = 0 then 1 else v.length)) v

/-- The zero vector. -/
def Vec3.zero : Vec3 := ⟨0, 0, 0⟩

/-- Quaternion, mirroring THREE.Quaternion / CANNON.Quaternion. -/
structure Quat where
  x : ℝ
  y : ℝ
  z : ℝ
  w : ℝ

/-- THREE.Quaternion.setFromEuler with the default rotation order XYZ, applied to
an Euler triple (x, y, z) stored as a Vec3. Translated from the three.js source. -/
def quatFromEulerXYZ (e : Vec3) : Quat :=
  let c1 := Real.cos (e.x / 2)
  let c2 := Real.cos (e.y / 2)
  let c3 := Real.cos (e.z / 2)
  let s1 := Real.sin (e.x / 2)
  let s2 := Real.sin (e.y / 2)
  let s3 := Real.sin (e.z / 2)
  ⟨s1 * c2 * c3 + c1 * s2 * s3,
   c1 * s2 * c3 - s1 * c2 * s3,
   c1 * c2 * s3 + s1 * s2 * c3,
   c1 * c2 * c3 - s1 * s2 * s3⟩

/-- THREE.Vector3.applyQuaternion, translated from the three.js source:
t = 2 cross(q.xyz, v); result = v + q.w t + cross(q.xyz, t). -/
def applyQuaternion (q : Quat) (v : Vec3) : Vec3 :=
  let tx := 2 * (q.y * v.z - q.z * v.y)
  let ty := 2 * (q.z * v.x - q.x * v.z)
  let tz := 2 * (q.x * v.y - q.y * v.x)
  ⟨v.x + q.w * tx + q.y * tz - q.z * ty,
   v.y + q.w * ty + q.z * tx - q.x * tz,
   v.z + q.w * tz + q.x * ty - q.y * tx⟩

/-- THREE.MathUtils.lerp x y t = (1 - t) x + t y. -/
def lerp (a b t : ℝ) : ℝ := (1 - t) * a + t * b

/-! Kinematic motion model: src/src/Spaceship.ts -/

/-- SpaceshipControls (src/src/Spaceship.ts). -/
structure SpaceshipControls where
  forward : Bool
  backward : Bool
  mouseX : ℝ
  mouseY : ℝ

/-- Spaceship.MAX_SPEED. -/
def MAX_SPEED : ℝ := 0.5

/-- Spaceship.ACCELERATION. -/
def ACCELERATION : ℝ := 0.02

/-- Spaceship.DRAG_COEFFICIENT. -/
def DRAG_COEFFICIENT : ℝ := 0.95

/-- Spaceship.MOUSE_SENSITIVITY (0.003 in both motion-model variants). -/
def MOUSE_SENSITIVITY : ℝ := 0.003

/-- Spaceship.BANKING_AMOUNT = pi / 6. -/
def BANKING_AMOUNT : ℝ := Real.pi / 6

/-- Mutable state of the kinematic Spaceship class: velocity, acceleration,
position, targetRotation (Euler), group.rotation (Euler), currentSpeed.
group.position always mirrors position (the update copies it), so it is not
tracked separately. -/
structure KinState where
  velocity : Vec3
  acceleration : Vec3
  position : Vec3
  targetRotation : Vec3
  rotation : Vec3
  currentSpeed : ℝ

/-- Spaceship.update, rotation-target part: targetRotation after the mouse
deltas, the pitch clamp to plus-minus pi/2, and the banking roll target. -/
def kinTargetRotation (c : SpaceshipControls) (s : KinState) : Vec3 :=
  ⟨max (-(Real.pi / 2))
     (min (Real.pi / 2) (s.targetRotation.x + c.mouseY * MOUSE_SENSITIVITY)),
   s.targetRotation.y + c.mouseX * MOUSE_SENSITIVITY,
   -(c.mouseX * MOUSE_SENSITIVITY) * BANKING_AMOUNT⟩

/-- Spaceship.update, rotation-smoothing part: group.rotation lerps toward the
new targetRotation with factors 0.1, 0.1, 0.05. -/
def kinRotation (c : SpaceshipControls) (s : KinState) : Vec3 :=
  ⟨lerp s.rotation.x (kinTargetRotation c s).x 0.1,
   lerp s.rotation.y (kinTargetRotation c s).y 0.1,
   lerp s.rotation.z (kinTargetRotation c s).z 0.05⟩

/-- Spaceship.update: forwardDirection = (0,0,1) rotated by group.quaternion.
Object3D keeps group.quaternion synchronised with group.rotation, so at this
point it reflects the rotation just written. -/
def kinForwardDirection (c : SpaceshipControls) (s : KinState) : Vec3 :=
  applyQuaternion (quatFromEulerXYZ (kinRotation c s)) ⟨0, 0, 1⟩

/-- Spaceship.update, thrust part. acceleration is reset, then each pressed
flag adds forwardDirection.multiplyScalar(...). multiplyScalar mutates the
vector in place, so after the forward branch runs, the backward branch reads
the ALREADY SCALED vector: its addend is (ACCELERATION * fd) scaled by
-ACCELERATION * 0.5, not fd scaled by -ACCELERATION * 0.5. -/
def kinAcceleration (c : SpaceshipControls) (s : KinState) : Vec3 :=
  let fd := kinForwardDirection c s
  let acc1 := if c.forward then Vec3.add Vec3.zero (Vec3.smul ACCELERATION fd)
              else Vec3.zero
  let fd1 := if c.forward then Vec3.smul ACCELERATION fd else fd
  if c.backward then Vec3.add acc1 (Vec3.smul (-ACCELERATION * 0.5) fd1) else acc1

/-- Spaceship.update: velocity after adding acceleration and applying drag,
before the speed cap. -/
def kinDragVelocity (c : SpaceshipControls) (s : KinState) : Vec3 :=
  Vec3.smul DRAG_COEFFICIENT (Vec3.add s.velocity (kinAcceleration c s))

/-- Spaceship.update: the speed cap. If the dragged velocity length strictly
exceeds MAX_SPEED it is normalized and rescaled to MAX_SPEED. -/
def kinCappedVelocity (c : SpaceshipControls) (s : KinState) : Vec3 :=
  if MAX_SPEED < (kinDragVelocity c s).length then
    Vec3.smul MAX_SPEED (kinDragVelocity c s).normalize
  else kinDragVelocity c s

/-- Spaceship.update (src/src/Spaceship.ts lines 86-134). The deltaTime
parameter is received but never read by the body. -/
def kinUpdate (c : SpaceshipControls) (deltaTime : ℝ) (s : KinState) : KinState :=
  { velocity := kinCappedVelocity c s,
    acceleration := kinAcceleration c s,
    position := Vec3.add s.position (kinCappedVelocity c s),
    targetRotation := kinTargetRotation c s,
    rotation := kinRotation c s,
    currentSpeed := (kinCappedVelocity c s).length }

/-- Iterated kinematic updates over a list of (controls, deltaTime) frames. -/
def kinRun (l : List (SpaceshipControls × ℝ)) (s : KinState) : KinState :=
  l.foldl (fun st p => kinUpdate p.1 p.2 st) s

/-- Neutral controls: no thrust, no mouse movement. -/
def neutralControls : SpaceshipControls := ⟨false, false, 0, 0⟩

/-- The all-zero kinematic state (the constructor state of the Spaceship class). -/
def kinZero : KinState :=
  { velocity := Vec3.zero, acceleration := Vec3.zero, position := Vec3.zero,
    targetRotation := Vec3.zero, rotation := Vec3.zero, currentSpeed := 0 }

/-! Rigid-body motion model: the Spaceship class in src/src/main.ts -/

/-- Rigid-body Spaceship.THRUST_POWER. -/
def THRUST_POWER : ℝ := 150

/-- Rigid-body Spaceship.ROTATION_TORQUE. -/
def ROTATION_TORQUE : ℝ := 25

/-- Rigid-body Spaceship.MOUSE_THRESHOLD, the dead-zone threshold. -/
def MOUSE_THRESHOLD : ℝ := 0.1

/-- CANNON.Quaternion.vmult, translated from the cannon-es source
(q * v * conj q expanded). -/
def quatVmult (q : Quat) (v : Vec3) : Vec3 :=
  let ix := q.w * v.x + q.y * v.z - q.z * v.y
  let iy := q.w * v.y + q.z * v.x - q.x * v.z
  let iz := q.w * v.z + q.x * v.y - q.y * v.x
  let iw := -q.x * v.x - q.y * v.y - q.z * v.z
  ⟨ix * q.w + iw * (-q.x) + iy * (-q.z) - iz * (-q.y),
   iy * q.w + iw * (-q.y) + iz * (-q.x) - ix * (-q.z),
   iz * q.w + iw * (-q.z) + ix * (-q.y) - iy * (-q.x)⟩

/-- State touched by the rigid-body Spaceship.update: the cannon body
position, quaternion, velocity, accumulated force and torque, the mirrored
three.js group transform, and the speed readout. The update call itself does
not integrate the body (PhysicsWorld.update does that elsewhere). -/
structure RigidState where
  bodyPosition : Vec3
  bodyQuaternion : Quat
  bodyVelocity : Vec3
  force : Vec3
  torque : Vec3
  groupPosition : Vec3
  groupQuaternion : Quat
  currentSpeed : ℝ

/-- The dead-zone guard of the rigid-body update: an axis value passes through
only when its absolute value strictly exceeds MOUSE_THRESHOLD, otherwise 0. -/
def rigidThreshold (v : ℝ) : ℝ := if MOUSE_THRESHOLD < |v| then v else 0

/-- Rigid-body Spaceship.update (src/src/main.ts lines 406-451): thresholds the
mouse axes, resets force and torque, applies local thrust forces rotated into
the world frame (applyLocalForce at the zero local point contributes no torque,
since the cross product with the zero offset vanishes), adds yaw/pitch/roll
torques gated on the thresholded axes, syncs the group transform with the body,
and recomputes currentSpeed. -/
def rigidUpdate (c : SpaceshipControls) (deltaTime : ℝ) (s : RigidState) : RigidState :=
  let mouseX := rigidThreshold c.mouseX
  let mouseY := rigidThreshold c.mouseY
  let force1 := if c.forward
    then Vec3.add Vec3.zero (quatVmult s.bodyQuaternion ⟨0, 0, THRUST_POWER⟩)
    else Vec3.zero
  let force2 := if c.backward
    then Vec3.add force1 (quatVmult s.bodyQuaternion ⟨0, 0, -THRUST_POWER * 0.5⟩)
    else force1
  let tY := if MOUSE_THRESHOLD < |mouseX|
    then -mouseX * MOUSE_SENSITIVITY * ROTATION_TORQUE else 0
  let tX := if MOUSE_THRESHOLD < |mouseY|
    then -mouseY * MOUSE_SENSITIVITY * ROTATION_TORQUE else 0
  let tZ := if MOUSE_THRESHOLD < |mouseX|
    then mouseX * MOUSE_SENSITIVITY * ROTATION_TORQUE * 0.5 else 0
  { bodyPosition := s.bodyPosition,
    bodyQuaternion := s.bodyQuaternion,
    bodyVelocity := s.bodyVelocity,
    force := force2,
    torque := ⟨0 + tX, 0 + tY, 0 + tZ⟩,
    groupPosition := s.bodyPosition,
    groupQuaternion := s.bodyQuaternion,
    currentSpeed := s.bodyVelocity.length }

/-! Camera controller: src/src/CameraController.ts -/

/-- CameraDebugControls. -/
structure CameraDebugControls where
  up : Bool
  down : Bool
  zoomToggle : Bool

/-- CameraController.FOLLOW_SPEED. -/
def FOLLOW_SPEED : ℝ := 0.08

/-- CameraController.DEBUG_SPEED. -/
def DEBUG_SPEED : ℝ := 0.2

/-- CameraController.CAMERA_DAMPING. -/
def CAMERA_DAMPING : ℝ := 0.15

/-- CameraController.LOOK_AHEAD_FACTOR. -/
def LOOK_AHEAD_FACTOR : ℝ := 0.3

/-- CameraController.BANKING_SENSITIVITY. -/
def BANKING_SENSITIVITY : ℝ := 0.5

/-- CameraController.MIN_HEIGHT. -/
def MIN_HEIGHT : ℝ := 0.5

/-- CameraController.MAX_HEIGHT. -/
def MAX_HEIGHT : ℝ := 10

/-- CameraController.ZOOM_DISTANCES, indexed by the ZoomMode numeric value
(CLOSE = 0, STANDARD = 1, FAR = 2). -/
def ZOOM_DISTANCES (m : ℕ) : ℝ := if m = 0 then -5 else if m = 1 then -10 else -20

/-- Mutable state of the CameraController. The wrapped THREE camera object
pose (position copy, lookAt, rotateZ) is display output computed from these
fields and is not tracked as controller state. -/
structure CameraState where
  currentZoomMode : ℕ
  lastZoomToggleState : Bool
  cameraOffset : Vec3
  targetPosition : Vec3
  currentPosition : Vec3
  cameraVelocity : Vec3
  lookAheadPosition : Vec3
  targetRoll : ℝ
  currentRoll : ℝ

/-- CameraController.update, zoom-mode part: advance (mode + 1) % 3 only on a
rising edge of the toggle (pressed now, not pressed last frame). -/
def camNextMode (dc : CameraDebugControls) (s : CameraState) : ℕ :=
  if dc.zoomToggle && !s.lastZoomToggleState then (s.currentZoomMode + 1) % 3
  else s.currentZoomMode

/-- CameraController.update, offset-z part: on the rising edge the offset z is
set directly to the new-mode fixed distance, otherwise it is untouched. -/
def camOffsetZ (dc : CameraDebugControls) (s : CameraState) : ℝ :=
  if dc.zoomToggle && !s.lastZoomToggleState then
    ZOOM_DISTANCES ((s.currentZoomMode + 1) % 3)
  else s.cameraOffset.z

/-- CameraController.update, height part: up then down, each clamped with
min/max against MAX_HEIGHT / MIN_HEIGHT. -/
def camOffsetY (dc : CameraDebugControls) (s : CameraState) : ℝ :=
  if dc.down then
    max ((if dc.up then min (s.cameraOffset.y + DEBUG_SPEED) MAX_HEIGHT
          else s.cameraOffset.y) - DEBUG_SPEED) MIN_HEIGHT
  else
    (if dc.up then min (s.cameraOffset.y + DEBUG_SPEED) MAX_HEIGHT
     else s.cameraOffset.y)

/-- One frame of input to CameraController.update: what the update reads from
the spaceship (position, velocity, group.rotation.z) plus the debug controls. -/
structure CamInput where
  shipPos : Vec3
  shipVel : Vec3
  shipRollZ : ℝ
  controls : CameraDebugControls

/-- CameraController.update (src/src/CameraController.ts lines 61-106). -/
def camUpdate (i : CamInput) (s : CameraState) : CameraState :=
  let offset : Vec3 := ⟨s.cameraOffset.x, camOffsetY i.controls s, camOffsetZ i.controls s⟩
  let lookAhead := Vec3.add i.shipPos (Vec3.smul LOOK_AHEAD_FACTOR i.shipVel)
  let target := Vec3.add i.shipPos offset
  let spring := Vec3.smul FOLLOW_SPEED (Vec3.sub target s.currentPosition)
  let camVel := Vec3.smul CAMERA_DAMPING (Vec3.add s.cameraVelocity spring)
  let tRoll := i.shipRollZ * BANKING_SENSITIVITY
  { currentZoomMode := camNextMode i.controls s,
    lastZoomToggleState := i.controls.zoomToggle,
    cameraOffset := offset,
    targetPosition := target,
    currentPosition := Vec3.add s.currentPosition camVel,
    cameraVelocity := camVel,
    lookAheadPosition := lookAhead,
    targetRoll := tRoll,
    currentRoll := lerp s.currentRoll tRoll 0.1 }

/-- CameraController.setCameraOffset: copies the given offset verbatim. -/
def camSetCameraOffset (offset : Vec3) (s : CameraState) : CameraState :=
  { s with cameraOffset := offset }

/-- The CameraController constructor state: STANDARD zoom, toggle unlatched,
offset (0, 3, ZOOM_DISTANCES STANDARD), everything else zero. -/
def camInit : CameraState :=
  { currentZoomMode := 1,
    lastZoomToggleState := false,
    cameraOffset := ⟨0, 3, ZOOM_DISTANCES 1⟩,
    targetPosition := Vec3.zero,
    currentPosition := Vec3.zero,
    cameraVelocity := Vec3.zero,
    lookAheadPosition := Vec3.zero,
    targetRoll := 0,
    currentRoll := 0 }

/-- Iterated camera updates over a list of frames. -/
def camRun (l : List CamInput) (s : CameraState) : CameraState :=
  l.foldl (fun st i => camUpdate i st) s

/-! Collision system: src/unnamed/part_001 -/

/-- CollisionSystem boundaries min = (-500, -500, -500). -/
def boundsMin : Vec3 := ⟨-500, -500, -500⟩

/-- CollisionSystem boundaries max = (500, 500, 500). -/
def boundsMax : Vec3 := ⟨500, 500, 500⟩

/-- CollisionSystem.spaceshipRadius. -/
def spaceshipRadius : ℝ := 1.5

/-- CollisionSystem.checkCollision trigger: a face branch fires, i.e. the
sphere of spaceshipRadius around the position pokes past some boundary plane. -/
def collides (s : KinState) : Prop :=
  s.position.x - spaceshipRadius < boundsMin.x ∨
  boundsMax.x < s.position.x + spaceshipRadius ∨
  s.position.y - spaceshipRadius < boundsMin.y ∨
  boundsMax.y < s.position.y + spaceshipRadius ∨
  s.position.z - spaceshipRadius < boundsMin.z ∨
  boundsMax.z < s.position.z + spaceshipRadius

instance collidesDecidable (s : KinState) : Decidable (collides s) := by
  unfold collides; infer_instance

/-- The correctedPosition built per axis by checkCollision: a violated min face
clamps to min + radius, a violated max face to max - radius (the two faces of
one axis are an if / else-if chain), otherwise the coordinate is kept. -/
def correctedPosition (s : KinState) : Vec3 :=
  ⟨if s.position.x - spaceshipRadius < boundsMin.x then boundsMin.x + spaceshipRadius
    else if boundsMax.x < s.position.x + spaceshipRadius then boundsMax.x - spaceshipRadius
    else s.position.x,
   if s.position.y - spaceshipRadius < boundsMin.y then boundsMin.y + spaceshipRadius
    else if boundsMax.y < s.position.y + spaceshipRadius then boundsMax.y - spaceshipRadius
    else s.position.y,
   if s.position.z - spaceshipRadius < boundsMin.z then boundsMin.z + spaceshipRadius
    else if boundsMax.z < s.position.z + spaceshipRadius then boundsMax.z - spaceshipRadius
    else s.position.z⟩

/-- The per-axis velocity clamp of checkCollision, before the bounce damping:
on a violated min face the component is floored at 0 (Math.max), on a violated
max face it is ceiled at 0 (Math.min). -/
def clampedVelocity (s : KinState) : Vec3 :=
  ⟨if s.position.x - spaceshipRadius < boundsMin.x then max 0 s.velocity.x
    else if boundsMax.x < s.position.x + spaceshipRadius then min 0 s.velocity.x
    else s.velocity.x,
   if s.position.y - spaceshipRadius < boundsMin.y then max 0 s.velocity.y
    else if boundsMax.y < s.position.y + spaceshipRadius then min 0 s.velocity.y
    else s.velocity.y,
   if s.position.z - spaceshipRadius < boundsMin.z then max 0 s.velocity.z
    else if boundsMax.z < s.position.z + spaceshipRadius then min 0 s.velocity.z
    else s.velocity.z⟩

/-- CollisionSystem.checkCollision (src/unnamed/part_001 lines 54-101): if any
face branch fired, the position becomes the corrected position (the group
position mirrors it) and the clamped velocity is scaled once by the fixed
bounce damping factor 0.3; otherwise the spaceship is untouched. -/
def checkCollision (s : KinState) : KinState :=
  if collides s then
    { s with position := correctedPosition s,
             velocity := Vec3.smul 0.3 (clampedVelocity s) }
  else s

/-- A position strictly inside the boundary volume (the open box). -/
def strictlyInside (p : Vec3) : Prop :=
  boundsMin.x < p.x ∧ p.x < boundsMax.x ∧
  boundsMin.y < p.y ∧ p.y < boundsMax.y ∧
  boundsMin.z < p.z ∧ p.z < boundsMax.z

/-! Helper lemmas -/

theorem Vec3.length_nonneg (v : Vec3) : 0 ≤ v.length := Real.sqrt_nonneg _

theorem Vec3.length_smul (k : ℝ) (v : Vec3) :
    (Vec3.smul k v).length = |k| * v.length := by
  unfold Vec3.length Vec3.smul
  have h : (k * v.x) ^ 2 + (k * v.y) ^ 2 + (k * v.z) ^ 2
      = k ^ 2 * (v.x ^ 2 + v.y ^ 2 + v.z ^ 2) := by ring
  rw [h, Real.sqrt_mul (sq_nonneg k), Real.sqrt_sq_eq_abs]

theorem kinUpdate_velocity (c : SpaceshipControls) (dt : ℝ) (s : KinState) :
    (kinUpdate c dt s).velocity = kinCappedVelocity c s := rfl

theorem kinCappedVelocity_length_le (c : SpaceshipControls) (s : KinState) :
    (kinCappedVelocity c s).length ≤ MAX_SPEED := by
  unfold kinCappedVelocity
  by_cases h : MAX_SPEED < (kinDragVelocity c s).length
  · rw [if_pos h]
    have hL0 : (0:ℝ) < (kinDragVelocity c s).length := by
      have : (0:ℝ) < MAX_SPEED := by norm_num [MAX_SPEED]
      linarith
    unfold Vec3.normalize
    rw [if_neg (ne_of_gt hL0)]
    rw [Vec3.length_smul, Vec3.length_smul]
    rw [abs_of_nonneg (by norm_num [MAX_SPEED] : (0:ℝ) ≤ MAX_SPEED),
        abs_of_nonneg (by positivity : (0:ℝ) ≤ 1 / (kinDragVelocity c s).length)]
    rw [one_div, inv_mul_cancel₀ (ne_of_gt hL0), mul_one]
  · rw [if_neg h]
    exact le_of_not_lt h

/-- Claim C3: the kinematic update integrates one elapsed-time unit per frame
with no variable-timestep scaling: two runs of Spaceship.update that differ
only in the deltaTime argument produce identical resulting states. -/
theorem kin_deltaTime_irrelevant (c : SpaceshipControls) (dt1 dt2 : ℝ) (s : KinState) :
    kinUpdate c dt1 s = kinUpdate c dt2 s := rfl

/-- Claim C4: after one kinematic Spaceship.update the velocity magnitude and
currentSpeed never exceed MAX_SPEED; the re-normalization runs only when the
dragged velocity strictly exceeds the cap (otherwise the velocity passes
through unchanged), so the vector that gets normalized never has length zero,
and when the cap fires the resulting speed is exactly MAX_SPEED. -/
theorem kin_speed_cap (c : SpaceshipControls) (dt : ℝ) (s : KinState) :
    (kinUpdate c dt s).velocity.length ≤ MAX_SPEED ∧
    (kinUpdate c dt s).currentSpeed ≤ MAX_SPEED ∧
    ((kinDragVelocity c s).length ≤ MAX_SPEED →
      (kinUpdate c dt s).velocity = kinDragVelocity c s) ∧
    (MAX_SPEED < (kinDragVelocity c s).length →
      (kinDragVelocity c s).length ≠ 0 ∧ (kinUpdate c dt s).velocity.length = MAX_SPEED) := by
  refine ⟨kinCappedVelocity_length_le c s, kinCappedVelocity_length_le c s, ?_, ?_⟩
  · intro h
    rw [kinUpdate_velocity]
    unfold kinCappedVelocity
    rw [if_neg (not_lt.2 h)]
  · intro h
    have hL0 : (0:ℝ) < (kinDragVelocity c s).length := by
      have : (0:ℝ) < MAX_SPEED := by norm_num [MAX_SPEED]
      linarith
    refine ⟨ne_of_gt hL0, ?_⟩
    rw [kinUpdate_velocity]
    unfold kinCappedVelocity
    rw [if_pos h]
    unfold Vec3.normalize
    rw [if_neg (ne_of_gt hL0)]
    rw [Vec3.length_smul, Vec3.length_smul]
    rw [abs_of_nonneg (by norm_num [MAX_SPEED] : (0:ℝ) ≤ MAX_SPEED),
        abs_of_nonneg (by positivity : (0:ℝ) ≤ 1 / (kinDragVelocity c s).length)]
    rw [one_div, inv_mul_cancel₀ (ne_of_gt hL0), mul_one]

/-- Witness for claim C4 at the resting state with neutral controls: the
dragged velocity has length 0 ≤ MAX_SPEED, so the cap leaves it unchanged. -/
theorem kin_speed_cap_witness :
    (kinDragVelocity neutralControls kinZero).length ≤ MAX_SPEED ∧
    (kinUpdate neutralControls 0 kinZero).velocity = kinDragVelocity neutralControls kinZero := by
  have h : (kinDragVelocity neutralControls kinZero).length ≤ MAX_SPEED := by
    have hd : kinDragVelocity neutralControls kinZero = ⟨0, 0, 0⟩ := by
      simp [kinDragVelocity, kinAcceleration, neutralControls, kinZero,
        Vec3.add, Vec3.smul, Vec3.zero]
    rw [hd]
    unfold Vec3.length
    norm_num [MAX_SPEED]
  exact ⟨h, (kin_speed_cap neutralControls 0 kinZero).2.2.1 h⟩

theorem kinTargetRotation_x_bound (c : SpaceshipControls) (s : KinState) :
    |(kinTargetRotation c s).x| ≤ Real.pi / 2 := by
  have hp : (0:ℝ) ≤ Real.pi / 2 := by positivity
  rw [abs_le]
  constructor
  · exact le_max_left _ _
  · exact max_le (by linarith) (min_le_left _ _)

theorem kinRotation_x_bound (c : SpaceshipControls) (s : KinState)
    (h : |s.rotation.x| ≤ Real.pi / 2) : |(kinRotation c s).x| ≤ Real.pi / 2 := by
  have ht := kinTargetRotation_x_bound c s
  rw [abs_le] at h ht ⊢
  unfold kinRotation lerp
  constructor
  · simp only
    linarith [h.1, ht.1]
  · simp only
    linarith [h.2, ht.2]

theorem kinRun_rotation_x_bound (l : List (SpaceshipControls × ℝ)) (s : KinState)
    (h : |s.rotation.x| ≤ Real.pi / 2) : |(kinRun l s).rotation.x| ≤ Real.pi / 2 := by
  induction l generalizing s with
  | nil => exact h
  | cons p t ih =>
    have h1 : |(kinUpdate p.1 p.2 s).rotation.x| ≤ Real.pi / 2 :=
      kinRotation_x_bound p.1 s h
    exact ih (kinUpdate p.1 p.2 s) h1

theorem kinRun_target_x_bound (l : List (SpaceshipControls × ℝ)) :
    ∀ s : KinState, |s.rotation.x| ≤ Real.pi / 2 → l ≠ [] →
      |(kinRun l s).targetRotation.x| ≤ Real.pi / 2 := by
  induction l with
  | nil => exact fun s h hne => absurd rfl hne
  | cons p t ih =>
    intro s h _
    rcases eq_or_ne t [] with hn | hn
    · subst hn
      exact kinTargetRotation_x_bound p.1 s
    · exact ih (kinUpdate p.1 p.2 s) (kinRotation_x_bound p.1 s h) hn

/-- Claim C10: in the kinematic motion model, for every sequence of update
calls with arbitrary mouse input, the craft actual pitch rotation stays in
[-pi/2, pi/2] provided it starts there, and after at least one update the
pitch target angle is also in [-pi/2, pi/2]. -/
theorem kin_pitch_clamp (l : List (SpaceshipControls × ℝ)) (s : KinState)
    (h : |s.rotation.x| ≤ Real.pi / 2) :
    |(kinRun l s).rotation.x| ≤ Real.pi / 2 ∧
    (l ≠ [] → |(kinRun l s).targetRotation.x| ≤ Real.pi / 2) :=
  ⟨kinRun_rotation_x_bound l s h, kinRun_target_x_bound l s h⟩

/-- Witness for claim C10: a single neutral frame from the zero state. -/
theorem kin_pitch_clamp_witness :
    |(kinRun [(neutralControls, 0)] kinZero).rotation.x| ≤ Real.pi / 2 ∧
    (([(neutralControls, 0)] : List (SpaceshipControls × ℝ)) ≠ [] →
      |(kinRun [(neutralControls, 0)] kinZero).targetRotation.x| ≤ Real.pi / 2) := by
  refine kin_pitch_clamp [(neutralControls, 0)] kinZero ?_
  have : kinZero.rotation.x = 0 := rfl
  rw [this, abs_zero]
  positivity

/-! Camera controller theorems -/

theorem camUpdate_mode (i : CamInput) (s : CameraState) :
    (camUpdate i s).currentZoomMode = camNextMode i.controls s := rfl

theorem camUpdate_last (i : CamInput) (s : CameraState) :
    (camUpdate i s).lastZoomToggleState = i.controls.zoomToggle := rfl

theorem camRun_held (l : List CamInput) (s : CameraState)
    (hl : s.lastZoomToggleState = true)
    (ha : ∀ j ∈ l, j.controls.zoomToggle = true) :
    (camRun l s).currentZoomMode = s.currentZoomMode ∧
    (camRun l s).lastZoomToggleState = true := by
  induction l generalizing s with
  | nil => exact ⟨rfl, hl⟩
  | cons i t ih =>
    have hi : i.controls.zoomToggle = true := ha i (by simp)
    have hmode : (camUpdate i s).currentZoomMode = s.currentZoomMode := by
      rw [camUpdate_mode]
      unfold camNextMode
      rw [hl, hi]
      simp
    have hlast : (camUpdate i s).lastZoomToggleState = true := by
      rw [camUpdate_last, hi]
    have ht := ih (camUpdate i s) hlast (fun j hj => ha j (by simp [hj]))
    exact ⟨hmode ▸ ht.1, ht.2⟩

/-- Claim C7: the zoom mode advances exactly one step through the cycle
(mode + 1) mod 3 on a rising edge of the toggle (pressed now, unlatched last
frame), the offset z jumps immediately to the new-mode fixed distance on that
same update, and a toggle held over any nonempty run of updates without release
advances the mode exactly once. -/
theorem camera_zoom_toggle (i : CamInput) (s : CameraState) (l : List CamInput) :
    (i.controls.zoomToggle = true → s.lastZoomToggleState = false →
      (camUpdate i s).currentZoomMode = (s.currentZoomMode + 1) % 3 ∧
      (camUpdate i s).cameraOffset.z = ZOOM_DISTANCES ((s.currentZoomMode + 1) % 3)) ∧
    (s.lastZoomToggleState = false → l ≠ [] →
      (∀ j ∈ l, j.controls.zoomToggle = true) →
      (camRun l s).currentZoomMode = (s.currentZoomMode + 1) % 3) := by
  constructor
  · intro ht hl
    constructor
    · rw [camUpdate_mode]
      unfold camNextMode
      rw [ht, hl]
      simp
    · show camOffsetZ i.controls s = _
      unfold camOffsetZ
      rw [ht, hl]
      simp
  · intro hl hne ha
    cases l with
    | nil => exact absurd rfl hne
    | cons i0 t =>
      have hi0 : i0.controls.zoomToggle = true := ha i0 (by simp)
      have hmode : (camUpdate i0 s).currentZoomMode = (s.currentZoomMode + 1) % 3 := by
        rw [camUpdate_mode]
        unfold camNextMode
        rw [hi0, hl]
        simp
      have hlast : (camUpdate i0 s).lastZoomToggleState = true := by
        rw [camUpdate_last, hi0]
      have ht := camRun_held t (camUpdate i0 s) hlast (fun j hj => ha j (by simp [hj]))
      show (camRun t (camUpdate i0 s)).currentZoomMode = _
      rw [ht.1, hmode]

/-- A frame whose only input is a held zoom toggle. -/
def heldToggleInput : CamInput :=
  { shipPos := Vec3.zero, shipVel := Vec3.zero, shipRollZ := 0,
    controls := { up := false, down := false, zoomToggle := true } }

/-- Witness for claim C7: from the constructor state, holding the toggle over
two consecutive updates advances the mode exactly once. -/
theorem camera_zoom_toggle_witness :
    camInit.lastZoomToggleState = false ∧
    (camRun [heldToggleInput, heldToggleInput] camInit).currentZoomMode
      = (camInit.currentZoomMode + 1) % 3 := by
  refine ⟨rfl, ?_⟩
  exact (camera_zoom_toggle heldToggleInput camInit
    [heldToggleInput, heldToggleInput]).2 rfl (by simp)
    (by intro j hj; simp at hj; subst hj; rfl)

/-- The camera offset invariant of claim C8: the height stays in the band
[MIN_HEIGHT, MAX_HEIGHT] and the offset z is the active zoom-mode fixed
distance. -/
def camInv (s : CameraState) : Prop :=
  MIN_HEIGHT ≤ s.cameraOffset.y ∧ s.cameraOffset.y ≤ MAX_HEIGHT ∧
  s.cameraOffset.z = ZOOM_DISTANCES s.currentZoomMode

theorem camOffsetY_bounds (dc : CameraDebugControls) (s : CameraState)
    (h1 : MIN_HEIGHT ≤ s.cameraOffset.y) (h2 : s.cameraOffset.y ≤ MAX_HEIGHT) :
    MIN_HEIGHT ≤ camOffsetY dc s ∧ camOffsetY dc s ≤ MAX_HEIGHT := by
  have hds : (0:ℝ) < DEBUG_SPEED := by norm_num [DEBUG_SPEED]
  have hmm : MIN_HEIGHT ≤ MAX_HEIGHT := by norm_num [MIN_HEIGHT, MAX_HEIGHT]
  have hb : MIN_HEIGHT ≤
        (if dc.up then min (s.cameraOffset.y + DEBUG_SPEED) MAX_HEIGHT
         else s.cameraOffset.y) ∧
      (if dc.up then min (s.cameraOffset.y + DEBUG_SPEED) MAX_HEIGHT
       else s.cameraOffset.y) ≤ MAX_HEIGHT := by
    split
    · exact ⟨le_min (by linarith) hmm, min_le_right _ _⟩
    · exact ⟨h1, h2⟩
  unfold camOffsetY
  split
  · exact ⟨le_max_right _ _, max_le (by linarith [hb.2]) hmm⟩
  · exact hb

theorem camUpdate_preserves_inv (i : CamInput) (s : CameraState)
    (h : camInv s) : camInv (camUpdate i s) := by
  obtain ⟨h1, h2, h3⟩ := h
  have hy := camOffsetY_bounds i.controls s h1 h2
  refine ⟨hy.1, hy.2, ?_⟩
  show camOffsetZ i.controls s = ZOOM_DISTANCES (camNextMode i.controls s)
  unfold camOffsetZ camNextMode
  by_cases hb : (i.controls.zoomToggle && !s.lastZoomToggleState) = true
  · rw [if_pos hb, if_pos hb]
  · rw [if_neg hb, if_neg hb]
    exact h3

/-- Claim C8 (amended): starting from the constructor state, the camera offset
invariant holds after every sequence of update calls. -/
theorem camera_offset_invariant (l : List CamInput) : camInv (camRun l camInit) := by
  have hinit : camInv camInit := by
    refine ⟨by norm_num [camInit, MIN_HEIGHT], by norm_num [camInit, MAX_HEIGHT], rfl⟩
  have step : ∀ t s, camInv s → camInv (camRun t s) := by
    intro t
    induction t with
    | nil => exact fun s h => h
    | cons i t2 ih =>
      exact fun s h => ih (camUpdate i s) (camUpdate_preserves_inv i s h)
  exact step l camInit hinit

/-- Counterexample to claim C8 as stated: setCameraOffset is a public
CameraController operation, it copies the given offset without clamping, and a
height of 100 leaves the [MIN_HEIGHT, MAX_HEIGHT] band. -/
theorem camera_offset_invariant_cex :
    ¬ camInv (camSetCameraOffset ⟨0, 100, 0⟩ camInit) := by
  intro h
  have := h.2.1
  simp only [camSetCameraOffset, camInit] at this
  norm_num [MAX_HEIGHT] at this

/-! Collision system theorems -/

/-- Claim C5: for a position on or outside a face of the boundary, one
checkCollision call puts the corresponding coordinate exactly at face plus or
minus the radius, makes the velocity component normal to a min face
non-negative and to a max face non-positive, and whenever any face fired the
whole velocity vector is the per-axis clamped velocity scaled exactly once by
the fixed bounce damping factor 0.3, no matter how many axes violated. -/
theorem collision_face_resolution (s : KinState) :
    (s.position.x ≤ boundsMin.x →
      (checkCollision s).position.x = boundsMin.x + spaceshipRadius ∧
      0 ≤ (checkCollision s).velocity.x) ∧
    (boundsMax.x ≤ s.position.x →
      (checkCollision s).position.x = boundsMax.x - spaceshipRadius ∧
      (checkCollision s).velocity.x ≤ 0) ∧
    (s.position.y ≤ boundsMin.y →
      (checkCollision s).position.y = boundsMin.y + spaceshipRadius ∧
      0 ≤ (checkCollision s).velocity.y) ∧
    (boundsMax.y ≤ s.position.y →
      (checkCollision s).position.y = boundsMax.y - spaceshipRadius ∧
      (checkCollision s).velocity.y ≤ 0) ∧
    (s.position.z ≤ boundsMin.z →
      (checkCollision s).position.z = boundsMin.z + spaceshipRadius ∧
      0 ≤ (checkCollision s).velocity.z) ∧
    (boundsMax.z ≤ s.position.z →
      (checkCollision s).position.z = boundsMax.z - spaceshipRadius ∧
      (checkCollision s).velocity.z ≤ 0) ∧
    (collides s → (checkCollision s).velocity = Vec3.smul 0.3 (clampedVelocity s)) := by
  have ex1 : boundsMin.x = -500 := rfl
  have ex2 : boundsMax.x = 500 := rfl
  have ey1 : boundsMin.y = -500 := rfl
  have ey2 : boundsMax.y = 500 := rfl
  have ez1 : boundsMin.z = -500 := rfl
  have ez2 : boundsMax.z = 500 := rfl
  have er : spaceshipRadius = 1.5 := rfl
  refine ⟨?_, ?_, ?_, ?_, ?_, ?_, ?_⟩
  · intro h
    have hb : s.position.x - spaceshipRadius < boundsMin.x := by
      rw [ex1] at h ⊢; rw [er]; linarith
    have hcol : collides s := Or.inl hb
    constructor
    · unfold checkCollision
      rw [if_pos hcol]
      show (correctedPosition s).x = _
      unfold correctedPosition
      rw [if_pos hb]
    · unfold checkCollision
      rw [if_pos hcol]
      show 0 ≤ 0.3 * (clampedVelocity s).x
      unfold clampedVelocity
      rw [if_pos hb]
      show (0:ℝ) ≤ 0.3 * max 0 s.velocity.x
      exact mul_nonneg (by norm_num) (le_max_left 0 _)
  · intro h
    have hb1 : ¬ (s.position.x - spaceshipRadius < boundsMin.x) := by
      rw [ex2] at h; rw [ex1, er]
      exact not_lt.2 (by linarith)
    have hb2 : boundsMax.x < s.position.x + spaceshipRadius := by
      rw [ex2] at h ⊢; rw [er]; linarith
    have hcol : collides s := Or.inr (Or.inl hb2)
    constructor
    · unfold checkCollision
      rw [if_pos hcol]
      show (correctedPosition s).x = _
      unfold correctedPosition
      rw [if_neg hb1, if_pos hb2]
    · unfold checkCollision
      rw [if_pos hcol]
      show 0.3 * (clampedVelocity s).x ≤ 0
      unfold clampedVelocity
      rw [if_neg hb1, if_pos hb2]
      show (0.3:ℝ) * min 0 s.velocity.x ≤ 0
      linarith [min_le_left (0:ℝ) s.velocity.x]
  · intro h
    have hb : s.position.y - spaceshipRadius < boundsMin.y := by
      rw [ey1] at h ⊢; rw [er]; linarith
    have hcol : collides s := Or.inr (Or.inr (Or.inl hb))
    constructor
    · unfold checkCollision
      rw [if_pos hcol]
      show (correctedPosition s).y = _
      unfold correctedPosition
      rw [if_pos hb]
    · unfold checkCollision
      rw [if_pos hcol]
      show 0 ≤ 0.3 * (clampedVelocity s).y
      unfold clampedVelocity
      rw [if_pos hb]
      show (0:ℝ) ≤ 0.3 * max 0 s.velocity.y
      exact mul_nonneg (by norm_num) (le_max_left 0 _)
  · intro h
    have hb1 : ¬ (s.position.y - spaceshipRadius < boundsMin.y) := by
      rw [ey2] at h; rw [ey1, er]
      exact not_lt.2 (by linarith)
    have hb2 : boundsMax.y < s.position.y + spaceshipRadius := by
      rw [ey2] at h ⊢; rw [er]; linarith
    have hcol : collides s := Or.inr (Or.inr (Or.inr (Or.inl hb2)))
    constructor
    · unfold checkCollision
      rw [if_pos hcol]
      show (correctedPosition s).y = _
      unfold correctedPosition
      rw [if_neg hb1, if_pos hb2]
    · unfold checkCollision
      rw [if_pos hcol]
      show 0.3 * (clampedVelocity s).y ≤ 0
      unfold clampedVelocity
      rw [if_neg hb1, if_pos hb2]
      show (0.3:ℝ) * min 0 s.velocity.y ≤ 0
      linarith [min_le_left (0:ℝ) s.velocity.y]
  · intro h
    have hb : s.position.z - spaceshipRadius < boundsMin.z := by
      rw [ez1] at h ⊢; rw [er]; linarith
    have hcol : collides s := Or.inr (Or.inr (Or.inr (Or.inr (Or.inl hb))))
    constructor
    · unfold checkCollision
      rw [if_pos hcol]
      show (correctedPosition s).z = _
      unfold correctedPosition
      rw [if_pos hb]
    · unfold checkCollision
      rw [if_pos hcol]
      show 0 ≤ 0.3 * (clampedVelocity s).z
      unfold clampedVelocity
      rw [if_pos hb]
      show (0:ℝ) ≤ 0.3 * max 0 s.velocity.z
      exact mul_nonneg (by norm_num) (le_max_left 0 _)
  · intro h
    have hb1 : ¬ (s.position.z - spaceshipRadius < boundsMin.z) := by
      rw [ez2] at h; rw [ez1, er]
      exact not_lt.2 (by linarith)
    have hb2 : boundsMax.z < s.position.z + spaceshipRadius := by
      rw [ez2] at h ⊢; rw [er]; linarith
    have hcol : collides s := Or.inr (Or.inr (Or.inr (Or.inr (Or.inr hb2))))
    constructor
    · unfold checkCollision
      rw [if_pos hcol]
      show (correctedPosition s).z = _
      unfold correctedPosition
      rw [if_neg hb1, if_pos hb2]
    · unfold checkCollision
      rw [if_pos hcol]
      show 0.3 * (clampedVelocity s).z ≤ 0
      unfold clampedVelocity
      rw [if_neg hb1, if_pos hb2]
      show (0.3:ℝ) * min 0 s.velocity.z ≤ 0
      linarith [min_le_left (0:ℝ) s.velocity.z]
  · intro hcol
    unfold checkCollision
    rw [if_pos hcol]

/-- A state outside two faces at once: past the x min face and the y max face. -/
def twoFaceState : KinState :=
  { kinZero with position := ⟨-501, 600, 0⟩, velocity := ⟨-2, 5, 1⟩ }

/-- Witness for claim C5: a position past the x min face is resolved to the
face plus the radius with non-negative x velocity. -/
theorem collision_face_resolution_witness :
    twoFaceState.position.x ≤ boundsMin.x ∧
    ((checkCollision twoFaceState).position.x = boundsMin.x + spaceshipRadius ∧
      0 ≤ (checkCollision twoFaceState).velocity.x) := by
  have h : twoFaceState.position.x ≤ boundsMin.x := by
    norm_num [twoFaceState, kinZero, boundsMin]
  exact ⟨h, (collision_face_resolution twoFaceState).1 h⟩

/-- A state strictly inside the boundary volume but within one spaceship
radius of the x min wall. -/
def insideWallState : KinState := { kinZero with position := ⟨-499, 0, 0⟩ }

/-- Counterexample to claim C6 as stated: a position strictly inside the
boundary volume that is within the spaceship radius of a wall is not left
alone: checkCollision moves it onto face plus radius. -/
theorem collision_noop_cex :
    strictlyInside insideWallState.position ∧
    (checkCollision insideWallState).position.x ≠ insideWallState.position.x := by
  constructor
  · norm_num [strictlyInside, insideWallState, kinZero, boundsMin, boundsMax]
  · have hb : insideWallState.position.x - spaceshipRadius < boundsMin.x := by
      norm_num [insideWallState, kinZero, spaceshipRadius, boundsMin]
    have hcol : collides insideWallState := Or.inl hb
    unfold checkCollision
    rw [if_pos hcol]
    show (correctedPosition insideWallState).x ≠ _
    unfold correctedPosition
    rw [if_pos hb]
    norm_num [insideWallState, kinZero, boundsMin, spaceshipRadius]

/-- Claim C6 (amended): checkCollision is a no-op exactly on the boundary
volume deflated by the spaceship radius: when every coordinate is at least
radius away from each wall, position and velocity are unchanged. -/
theorem collision_deflated_noop (s : KinState)
    (h1 : boundsMin.x + spaceshipRadius ≤ s.position.x)
    (h2 : s.position.x ≤ boundsMax.x - spaceshipRadius)
    (h3 : boundsMin.y + spaceshipRadius ≤ s.position.y)
    (h4 : s.position.y ≤ boundsMax.y - spaceshipRadius)
    (h5 : boundsMin.z + spaceshipRadius ≤ s.position.z)
    (h6 : s.position.z ≤ boundsMax.z - spaceshipRadius) :
    checkCollision s = s := by
  have hcol : ¬ collides s := by
    unfold collides
    push_neg
    refine ⟨by linarith, by linarith, by linarith, by linarith, by linarith, by linarith⟩
  unfold checkCollision
  rw [if_neg hcol]

/-- Witness for claim C6 (amended): the origin state is untouched. -/
theorem collision_deflated_noop_witness :
    boundsMin.x + spaceshipRadius ≤ kinZero.position.x ∧
    checkCollision kinZero = kinZero := by
  have hn : ∀ a : ℝ, a = 0 →
      boundsMin.x + spaceshipRadius ≤ a ∧ a ≤ boundsMax.x - spaceshipRadius := by
    intro a ha
    subst ha
    norm_num [boundsMin, boundsMax, spaceshipRadius]
  refine ⟨(hn _ rfl).1, collision_deflated_noop kinZero ?_ ?_ ?_ ?_ ?_ ?_⟩ <;>
    norm_num [kinZero, Vec3.zero, boundsMin, boundsMax, spaceshipRadius]

/-! Zero-state evaluation lemmas for the kinematic model -/

theorem kinTargetRotation_zero (c : SpaceshipControls) (s : KinState)
    (hx : c.mouseX = 0) (hy : c.mouseY = 0) (ht : s.targetRotation = Vec3.zero) :
    kinTargetRotation c s = Vec3.zero := by
  have hp : (0:ℝ) ≤ Real.pi / 2 := by positivity
  have hn : -(Real.pi / 2) ≤ (0:ℝ) := by linarith
  unfold kinTargetRotation
  rw [hx, hy, ht]
  have ex : max (-(Real.pi / 2)) (min (Real.pi / 2) (Vec3.zero.x + 0 * MOUSE_SENSITIVITY)) = 0 := by
    have e0 : Vec3.zero.x + 0 * MOUSE_SENSITIVITY = 0 := by
      show (0:ℝ) + 0 * MOUSE_SENSITIVITY = 0
      ring
    rw [e0, min_eq_right hp, max_eq_right hn]
  have ey : Vec3.zero.y + 0 * MOUSE_SENSITIVITY = 0 := by
    show (0:ℝ) + 0 * MOUSE_SENSITIVITY = 0
    ring
  have ez : -(0 * MOUSE_SENSITIVITY) * BANKING_AMOUNT = 0 := by ring
  rw [ex, ey, ez]
  rfl

theorem kinRotation_zero (c : SpaceshipControls) (s : KinState)
    (hx : c.mouseX = 0) (hy : c.mouseY = 0) (ht : s.targetRotation = Vec3.zero)
    (hr : s.rotation = Vec3.zero) : kinRotation c s = Vec3.zero := by
  unfold kinRotation
  rw [hr, kinTargetRotation_zero c s hx hy ht]
  simp [lerp, Vec3.zero]

theorem kinForwardDirection_zero (c : SpaceshipControls) (s : KinState)
    (hx : c.mouseX = 0) (hy : c.mouseY = 0) (ht : s.targetRotation = Vec3.zero)
    (hr : s.rotation = Vec3.zero) : kinForwardDirection c s = ⟨0, 0, 1⟩ := by
  unfold kinForwardDirection
  rw [kinRotation_zero c s hx hy ht hr]
  simp [quatFromEulerXYZ, applyQuaternion, Vec3.zero, Real.cos_zero, Real.sin_zero]

/-! Thrust aliasing (claim C1) -/

/-- Both thrust flags held, no mouse movement. -/
def bothThrust : SpaceshipControls := ⟨true, true, 0, 0⟩

/-- Claim C1, against the code at a concrete failing input: with both thrust
flags set from the resting state, the stored acceleration is forwardDirection
scaled by ACCELERATION - ACCELERATION^2 * 0.5 (the forward branch in-place
multiplyScalar has already scaled the shared direction vector when the
backward branch reads it), which differs from the claimed vector sum
forwardDirection scaled by ACCELERATION * 0.5. -/
theorem kin_both_thrust_alias :
    (kinUpdate bothThrust 0 kinZero).acceleration
      = ⟨0, 0, ACCELERATION - ACCELERATION * ACCELERATION * 0.5⟩ ∧
    (kinUpdate bothThrust 0 kinZero).acceleration
      ≠ Vec3.smul (ACCELERATION * 0.5) (kinForwardDirection bothThrust kinZero) := by
  have hfd : kinForwardDirection bothThrust kinZero = ⟨0, 0, 1⟩ :=
    kinForwardDirection_zero bothThrust kinZero rfl rfl rfl rfl
  have hacc : (kinUpdate bothThrust 0 kinZero).acceleration
      = ⟨0, 0, ACCELERATION - ACCELERATION * ACCELERATION * 0.5⟩ := by
    show kinAcceleration bothThrust kinZero = _
    unfold kinAcceleration
    rw [hfd]
    simp only [bothThrust, if_true]
    simp [Vec3.add, Vec3.smul, Vec3.zero, Vec3.mk.injEq, ACCELERATION]
    norm_num
  refine ⟨hacc, ?_⟩
  rw [hacc, hfd]
  intro h
  simp only [Vec3.smul, Vec3.mk.injEq] at h
  have := h.2.2
  norm_num [ACCELERATION] at this

/-! No-op frame (claim C2) -/

/-- A resting state except for a small forward velocity. -/
def driftState : KinState := { kinZero with velocity := ⟨0, 0, 0.1⟩ }

/-- Counterexample to claim C2 as stated: with all inputs neutral and elapsed
time 0, drag still scales the velocity, so the craft state changes. -/
theorem kin_noop_cex :
    (kinUpdate neutralControls 0 driftState).velocity ≠ driftState.velocity := by
  have hacc : kinAcceleration neutralControls driftState = Vec3.zero := by
    unfold kinAcceleration
    simp [neutralControls]
  have hdrag : kinDragVelocity neutralControls driftState = ⟨0, 0, 0.095⟩ := by
    unfold kinDragVelocity
    rw [hacc]
    show Vec3.smul DRAG_COEFFICIENT (Vec3.add ⟨0, 0, 0.1⟩ Vec3.zero) = _
    simp [Vec3.add, Vec3.smul, Vec3.zero, Vec3.mk.injEq, DRAG_COEFFICIENT]
    norm_num
  have hlen : (kinDragVelocity neutralControls driftState).length = 0.095 := by
    rw [hdrag]
    show Real.sqrt ((0:ℝ) ^ 2 + 0 ^ 2 + 0.095 ^ 2) = 0.095
    have e : ((0:ℝ) ^ 2 + 0 ^ 2 + 0.095 ^ 2) = 0.095 ^ 2 := by norm_num
    rw [e, Real.sqrt_sq (by norm_num : (0:ℝ) ≤ 0.095)]
  have hnc : ¬ (MAX_SPEED < (kinDragVelocity neutralControls driftState).length) := by
    rw [hlen]
    norm_num [MAX_SPEED]
  have hv : (kinUpdate neutralControls 0 driftState).velocity = ⟨0, 0, 0.095⟩ := by
    rw [kinUpdate_velocity]
    unfold kinCappedVelocity
    rw [if_neg hnc, hdrag]
  rw [hv]
  intro h
  have hz := congrArg Vec3.z h
  simp only [driftState] at hz
  norm_num at hz

/-- Claim C2 (amended): the neutral zero-elapsed-time frame is a no-op exactly
on converged states: velocity zero, currentSpeed zero, the actual rotation
equal to the target rotation, the pitch target inside the clamp band, and the
roll target zero. In general drag and the rotation lerp still act, since the
update never reads deltaTime. -/
theorem kin_noop_at_rest (s : KinState)
    (hv : s.velocity = Vec3.zero) (hs : s.currentSpeed = 0)
    (hr : s.rotation = s.targetRotation)
    (hx1 : -(Real.pi / 2) ≤ s.targetRotation.x) (hx2 : s.targetRotation.x ≤ Real.pi / 2)
    (hz : s.targetRotation.z = 0) :
    (kinUpdate neutralControls 0 s).position = s.position ∧
    (kinUpdate neutralControls 0 s).rotation = s.rotation ∧
    (kinUpdate neutralControls 0 s).targetRotation = s.targetRotation ∧
    (kinUpdate neutralControls 0 s).velocity = s.velocity ∧
    (kinUpdate neutralControls 0 s).currentSpeed = s.currentSpeed := by
  have htr : kinTargetRotation neutralControls s = s.targetRotation := by
    unfold kinTargetRotation
    rw [show neutralControls.mouseX = 0 from rfl, show neutralControls.mouseY = 0 from rfl]
    have e1 : s.targetRotation.x + 0 * MOUSE_SENSITIVITY = s.targetRotation.x := by ring
    have e2 : s.targetRotation.y + 0 * MOUSE_SENSITIVITY = s.targetRotation.y := by ring
    have e3 : -(0 * MOUSE_SENSITIVITY) * BANKING_AMOUNT = 0 := by ring
    rw [e1, e2, e3, min_eq_right hx2, max_eq_right hx1, ← hz]
  have hrot : kinRotation neutralControls s = s.targetRotation := by
    unfold kinRotation
    rw [hr, htr]
    have e : ∀ a t : ℝ, lerp a a t = a := by
      intro a t
      unfold lerp
      ring
    rw [e, e, e]
  have hacc : kinAcceleration neutralControls s = Vec3.zero := by
    unfold kinAcceleration
    simp [neutralControls]
  have hdrag : kinDragVelocity neutralControls s = Vec3.zero := by
    unfold kinDragVelocity
    rw [hacc, hv]
    simp [Vec3.add, Vec3.smul, Vec3.zero]
  have hlen0 : (kinDragVelocity neutralControls s).length = 0 := by
    rw [hdrag]
    show Real.sqrt ((0:ℝ) ^ 2 + 0 ^ 2 + 0 ^ 2) = 0
    simp
  have hcap : kinCappedVelocity neutralControls s = Vec3.zero := by
    unfold kinCappedVelocity
    have hnc : ¬ (MAX_SPEED < (kinDragVelocity neutralControls s).length) := by
      rw [hlen0]
      norm_num [MAX_SPEED]
    rw [if_neg hnc, hdrag]
  refine ⟨?_, ?_, ?_, ?_, ?_⟩
  · show Vec3.add s.position (kinCappedVelocity neutralControls s) = s.position
    rw [hcap]
    show (⟨s.position.x + 0, s.position.y + 0, s.position.z + 0⟩ : Vec3) = s.position
    simp
  · show kinRotation neutralControls s = s.rotation
    rw [hrot, hr]
  · exact htr
  · show kinCappedVelocity neutralControls s = s.velocity
    rw [hcap, hv]
  · show (kinCappedVelocity neutralControls s).length = s.currentSpeed
    rw [hcap, hs]
    show Real.sqrt ((0:ℝ) ^ 2 + 0 ^ 2 + 0 ^ 2) = 0
    simp

/-- Witness for claim C2 (amended) at the constructor state. -/
theorem kin_noop_at_rest_witness :
    kinZero.velocity = Vec3.zero ∧
    ((kinUpdate neutralControls 0 kinZero).position = kinZero.position ∧
     (kinUpdate neutralControls 0 kinZero).rotation = kinZero.rotation ∧
     (kinUpdate neutralControls 0 kinZero).targetRotation = kinZero.targetRotation ∧
     (kinUpdate neutralControls 0 kinZero).velocity = kinZero.velocity ∧
     (kinUpdate neutralControls 0 kinZero).currentSpeed = kinZero.currentSpeed) := by
  have h1 : -(Real.pi / 2) ≤ kinZero.targetRotation.x := by
    show -(Real.pi / 2) ≤ (0:ℝ)
    linarith [Real.pi_pos]
  have h2 : kinZero.targetRotation.x ≤ Real.pi / 2 := by
    show (0:ℝ) ≤ Real.pi / 2
    positivity
  exact ⟨rfl, kin_noop_at_rest kinZero rfl rfl rfl h1 h2 rfl⟩

/-! Dead zone (claim C9) -/

/-- Controls with the x mouse axis exactly at the dead-zone threshold. -/
def atThreshold : SpaceshipControls := ⟨false, false, 0.1, 0⟩

/-- Counterexample to claim C9 as stated: the kinematic variant applies no
dead zone at all, so a mouse-axis value exactly at the rigid-body threshold
still moves the kinematic yaw target away from the axis-zero result. -/
theorem kin_deadzone_cex :
    |atThreshold.mouseX| ≤ MOUSE_THRESHOLD ∧
    (kinUpdate atThreshold 0 kinZero).targetRotation.y
      ≠ (kinUpdate neutralControls 0 kinZero).targetRotation.y := by
  constructor
  · show |(0.1:ℝ)| ≤ MOUSE_THRESHOLD
    rw [abs_of_nonneg (by norm_num : (0:ℝ) ≤ 0.1)]
    norm_num [MOUSE_THRESHOLD]
  · show (kinTargetRotation atThreshold kinZero).y
      ≠ (kinTargetRotation neutralControls kinZero).y
    unfold kinTargetRotation
    show (0:ℝ) + 0.1 * MOUSE_SENSITIVITY ≠ 0 + 0 * MOUSE_SENSITIVITY
    norm_num [MOUSE_SENSITIVITY]

/-- Claim C9 (amended): in the rigid-body variant, a mouse-axis value whose
magnitude is at or below MOUSE_THRESHOLD (the at-threshold case included) is
excluded before any force or torque computation: the resulting state equals
the state produced with that axis set to 0. The kinematic variant has no dead
zone. -/
theorem rigid_deadzone (c : SpaceshipControls) (dt : ℝ) (s : RigidState) :
    (|c.mouseX| ≤ MOUSE_THRESHOLD →
      rigidUpdate c dt s = rigidUpdate { c with mouseX := 0 } dt s) ∧
    (|c.mouseY| ≤ MOUSE_THRESHOLD →
      rigidUpdate c dt s = rigidUpdate { c with mouseY := 0 } dt s) := by
  have hz : rigidThreshold (0:ℝ) = 0 := by
    unfold rigidThreshold
    rw [if_neg (by rw [abs_zero]; norm_num [MOUSE_THRESHOLD])]
  constructor
  · intro h
    have h1 : rigidThreshold c.mouseX = 0 := by
      unfold rigidThreshold
      rw [if_neg (not_lt.2 h)]
    simp [rigidUpdate, h1, hz]
  · intro h
    have h1 : rigidThreshold c.mouseY = 0 := by
      unfold rigidThreshold
      rw [if_neg (not_lt.2 h)]
    simp [rigidUpdate, h1, hz]

/-- The rigid body at rest with the identity orientation. -/
def rigidZero : RigidState :=
  { bodyPosition := Vec3.zero, bodyQuaternion := ⟨0, 0, 0, 1⟩,
    bodyVelocity := Vec3.zero, force := Vec3.zero, torque := Vec3.zero,
    groupPosition := Vec3.zero, groupQuaternion := ⟨0, 0, 0, 1⟩,
    currentSpeed := 0 }

/-- Controls with the x mouse axis exactly at the dead-zone threshold and
thrust held. -/
def smallMouse : SpaceshipControls := ⟨true, false, 0.1, 0.2⟩

/-- Witness for claim C9 (amended): the at-threshold x axis is equivalent to
a zeroed x axis in the rigid-body update. -/
theorem rigid_deadzone_witness :
    |smallMouse.mouseX| ≤ MOUSE_THRESHOLD ∧
    rigidUpdate smallMouse 0 rigidZero
      = rigidUpdate { smallMouse with mouseX := 0 } 0 rigidZero := by
  have h : |smallMouse.mouseX| ≤ MOUSE_THRESHOLD := by
    show |(0.1:ℝ)| ≤ MOUSE_THRESHOLD
    rw [abs_of_nonneg (by norm_num : (0:ℝ) ≤ 0.1)]
    norm_num [MOUSE_THRESHOLD]
  exact ⟨h, (rigid_deadzone smallMouse 0 rigidZero).1 h⟩

end
